import Mathlib

/-!
Verification of the MediaFoundation camera bindings
(src/nokhwa-bindings-windows/src/lib.rs, module wmf).

The definitions below are a shallow embedding of that source file.
Platform (COM / Media Foundation) calls are modelled by environment
records holding the outcome of each call site, so every function of the
source becomes a pure Lean function of its environment and arguments.
Machine integers are Nat with explicit truncation (mod 2 pow 32 for a
u32 cast, mod 2 pow 8 for a u8 cast); fallible code returns Except.
-/

deriving instance DecidableEq for Except

namespace NokhwaWmf

/-- Modelled from the spec: the pixel-encoding enumeration of the portable
format model (nokhwa-core, not under src/): MJPEG, YUYV, GRAY. -/
inductive FrameFormat
  | MJPEG
  | YUYV
  | GRAY
deriving DecidableEq, Repr

/-- Modelled from the spec: resolution in pixels (width, height) of the
portable format model (nokhwa-core, not under src/). -/
structure Resolution where
  width_x : Nat
  height_y : Nat
deriving DecidableEq, Repr

/-- Modelled from the spec: the portable CaptureFormat value type
(nokhwa-core CameraFormat, not under src/): resolution, pixel encoding and
an unsigned numerator-only frame rate. -/
structure CameraFormat where
  resolution : Resolution
  format : FrameFormat
  frame_rate : Nat
deriving DecidableEq, Repr

/-- Modelled from the spec: the device index taken by open calls
(nokhwa-core CameraIndex, not under src/): an ordinal or a string. -/
inductive CameraIndex
  | idx (n : Nat)
  | str (s : String)
deriving DecidableEq, Repr

/-- Modelled from the spec: the device descriptor (nokhwa-core CameraInfo,
not under src/): human name, description, symbolic locator (misc) and
ordinal index. -/
structure CameraInfo where
  human_name : String
  description : String
  misc : String
  index : CameraIndex
deriving DecidableEq, Repr

/-- Modelled from the spec: the error taxonomy (nokhwa-core NokhwaError,
not under src/). Each constructor keeps the payload the source attaches
at the call sites embedded below; the backend tag of lifecycle errors is
always MediaFoundation here and is left implicit. -/
inductive NkError
  | initError (error : String)
  | shutdownError (error : String)
  | getPropertyError (property : String) (error : String)
  | setPropertyError (property : String) (value : String) (error : String)
  | structureError (structName : String) (error : String)
  | openDeviceError (id : String) (error : String)
  | openStreamError (error : String)
  | readFrameError (error : String)
  | notImplementedError (error : String)
deriving DecidableEq, Repr

/-- Media subtype GUIDs as compared in the source: the three recognized
video format constants (MF_VIDEO_FORMAT_MJPEG, MF_VIDEO_FORMAT_YUY2,
MF_VIDEO_FORMAT_GRAY, lib.rs lines 100-117) and any other GUID. -/
inductive MFGuid
  | videoFormatMJPEG
  | videoFormatYUY2
  | videoFormatGRAY
  | other (id : Nat)
deriving DecidableEq, Repr

/-- The if-else chain of compatible_format_list (lib.rs lines 627-635):
the three recognized GUIDs map to a FrameFormat, anything else to none
(the source then runs continue). -/
def toFrameFormat : MFGuid → Option FrameFormat
  | .videoFormatMJPEG => some .MJPEG
  | .videoFormatYUY2 => some .YUYV
  | .videoFormatGRAY => some .GRAY
  | .other _ => none

/-- The packed-fraction decode used for all three frame-rate reads of
compatible_format_list (lib.rs lines 574-625): numerator is the high 32
bits, denominator the low 32 bits, and a denominator other than 1 forces
the numerator to 0. -/
def decodeFrameRate (fraction_u64 : Nat) : Nat :=
  let numerator := fraction_u64 / 2 ^ 32 % 2 ^ 32
  let denominator := fraction_u64 % 2 ^ 32
  if denominator ≠ 1 then 0 else numerator

/-- One native media type as compatible_format_list reads it: the outcome
of each attribute Get call on that type (lib.rs lines 549-625). -/
structure MFNativeType where
  getSubtype : Except String MFGuid
  getFrameSize : Except String Nat
  getFrameRate : Except String Nat
  getFrameRateMin : Except String Nat
  getFrameRateMax : Except String Nat
deriving DecidableEq, Repr

/-- The up-to-three pushes that compatible_format_list performs per native
type (lib.rs lines 637-659): min if nonzero, nominal if nonzero and
distinct from min, max if nonzero and distinct from nominal. -/
def emitForType (res : Resolution) (fmt : FrameFormat)
    (frame_rate_min frame_rate frame_rate_max : Nat) : List CameraFormat :=
  (if frame_rate_min ≠ 0 then [⟨res, fmt, frame_rate_min⟩] else []) ++
    (if frame_rate ≠ 0 ∧ frame_rate_min ≠ frame_rate then [⟨res, fmt, frame_rate⟩] else []) ++
    (if frame_rate_max ≠ 0 ∧ frame_rate ≠ frame_rate_max then [⟨res, fmt, frame_rate_max⟩] else [])

/-- The while-let loop of compatible_format_list (lib.rs lines 541-664),
with explicit fuel. GetNativeMediaType is the list lookup at the current
index (an out-of-range index is the platform error that ends the loop).
The reads happen in source order; an unrecognized subtype runs the
source continue, which jumps back to the loop head WITHOUT passing the
index increment at the end of the body (lib.rs line 661), so the index
argument is unchanged in that branch. none means the fuel ran out before
the loop finished. -/
def compatLoop (dev : List MFNativeType) :
    Nat → Nat → List CameraFormat → Option (Except NkError (List CameraFormat))
  | 0, _, _ => none
  | fuel + 1, index, acc =>
    match dev.get? index with
    | none => some (.ok acc)
    | some media_type =>
      match media_type.getSubtype with
      | .error why => some (.error (.getPropertyError "MF_MT_SUBTYPE" why))
      | .ok fourcc =>
        match media_type.getFrameSize with
        | .error why => some (.error (.getPropertyError "MF_MT_FRAME_SIZE" why))
        | .ok res_u64 =>
          let width := res_u64 / 2 ^ 32 % 2 ^ 32
          let height := res_u64 % 2 ^ 32
          match media_type.getFrameRateMax with
          | .error why => some (.error (.getPropertyError "MF_MT_FRAME_RATE_RANGE_MAX" why))
          | .ok frmax_u64 =>
            let frame_rate_max := decodeFrameRate frmax_u64
            match media_type.getFrameRate with
            | .error why => some (.error (.getPropertyError "MF_MT_FRAME_RATE" why))
            | .ok fr_u64 =>
              let frame_rate := decodeFrameRate fr_u64
              match media_type.getFrameRateMin with
              | .error why => some (.error (.getPropertyError "MF_MT_FRAME_RATE_RANGE_MIN" why))
              | .ok frmin_u64 =>
                let frame_rate_min := decodeFrameRate frmin_u64
                match toFrameFormat fourcc with
                | none => compatLoop dev fuel index acc
                | some frame_fmt =>
                  compatLoop dev fuel (index + 1)
                    (acc ++ emitForType ⟨width, height⟩ frame_fmt
                      frame_rate_min frame_rate frame_rate_max)

/-- compatible_format_list of MediaFoundationDevice, over a device given
as its native media-type list, starting at index 0 with an empty
accumulator. -/
def compatible_format_list (dev : List MFNativeType) (fuel : Nat) :
    Option (Except NkError (List CameraFormat)) :=
  compatLoop dev fuel 0 []

/-- The attribute reads format_refreshed performs on the current media
type (lib.rs lines 938-1002): the GetCurrentMediaType call and the three
Get calls on its result. -/
structure CurrentTypeEnv where
  getCurrent : Except String Unit
  getFrameSize : Except String Nat
  getFrameRate : Except String Nat
  getSubtype : Except String MFGuid
deriving DecidableEq, Repr

/-- format_refreshed (lib.rs lines 938-1002). Width is the high 32 bits
of the packed frame size and height the low 32 bits; the frame rate is
the raw packed 64-bit value cast to u32 (fps as u32, lib.rs line 963),
which keeps only its LOW 32 bits. An unrecognized subtype is a
GetPropertyError (in the source that arm names a variable that is not in
scope there; the message is abstracted here). -/
def format_refreshed (env : CurrentTypeEnv) : Except NkError CameraFormat :=
  match env.getCurrent with
  | .error why => .error (.getPropertyError "MF_SOURCE_READER_FIRST_VIDEO_STREAM" why)
  | .ok _ =>
    match env.getFrameSize with
    | .error why => .error (.getPropertyError "MF_MT_FRAME_SIZE" why)
    | .ok res =>
      let width := res / 2 ^ 32 % 2 ^ 32
      let height := res % 2 ^ 32
      match env.getFrameRate with
      | .error why => .error (.getPropertyError "MF_MT_FRAME_RATE" why)
      | .ok fps =>
        let frame_rate := fps % 2 ^ 32
        match env.getSubtype with
        | .error why => .error (.getPropertyError "MF_MT_SUBTYPE" why)
        | .ok fcc =>
          match toFrameFormat fcc with
          | none => .error (.getPropertyError "MF_MT_SUBTYPE" "unrecognized subtype")
          | some fmt => .ok ⟨⟨width, height⟩, fmt, frame_rate⟩

/-- The packed 64-bit frame-rate value set_format builds (lib.rs lines
1023-1030): starting from the little-endian bytes of 0, byte 7 is set to
the frame rate cast to u8 and byte 3 to 0x01, then the bytes are read
back as a little-endian u64. Byte 7 is the most significant byte, so the
value is (frame_rate mod 256) * 2 pow 56 + 2 pow 24. -/
def packFrameRate (frame_rate : Nat) : Nat :=
  frame_rate % 2 ^ 8 * 2 ^ 56 + 2 ^ 24

/-- The subtype GUID set_format picks from the requested pixel encoding
(lib.rs lines 1031-1035). -/
def fourccOf : FrameFormat → MFGuid
  | .MJPEG => .videoFormatMJPEG
  | .YUYV => .videoFormatYUY2
  | .GRAY => .videoFormatGRAY

/-- The native media type set_format fills in (lib.rs lines 1037-1078):
major type video, subtype from the encoding, packed frame size, and the
same packed frame-rate value in the current, minimum and maximum rate
fields. -/
structure MFMediaType where
  majorVideo : Bool
  subtype : MFGuid
  frameSize : Nat
  frameRate : Nat
  frameRateRangeMin : Nat
  frameRateRangeMax : Nat
deriving DecidableEq, Repr

/-- The media type set_format builds from a CameraFormat: packed frame
size (width in the high 32 bits, height in the low 32), and
packFrameRate applied identically to the three rate fields. -/
def builtMediaType (format : CameraFormat) : MFMediaType :=
  { majorVideo := true
    subtype := fourccOf format.format
    frameSize := format.resolution.width_x * 2 ^ 32 + format.resolution.height_y
    frameRate := packFrameRate format.frame_rate
    frameRateRangeMin := packFrameRate format.frame_rate
    frameRateRangeMax := packFrameRate format.frame_rate }

/-- The outcome of each platform call site in set_format (lib.rs lines
1008-1097): MFCreateMediaType, the six attribute Set calls, and
SetCurrentMediaType. -/
structure SetFormatEnv where
  createMediaType : Except String Unit
  setMajorType : Except String Unit
  setSubtype : Except String Unit
  setFrameSize : Except String Unit
  setFrameRate : Except String Unit
  setFrameRateMin : Except String Unit
  setFrameRateMax : Except String Unit
  setCurrent : Except String Unit
deriving DecidableEq, Repr

/-- set_format (lib.rs lines 1008-1097) up to the SetCurrentMediaType
call: each platform failure surfaces as the error the source builds
there, and success yields the media type handed to SetCurrentMediaType
(the source then stores the format and calls format_refreshed). -/
def set_format (env : SetFormatEnv) (format : CameraFormat) : Except NkError MFMediaType :=
  match env.createMediaType with
  | .error why => .error (.structureError "IMFMediaType" why)
  | .ok _ =>
    match env.setMajorType with
    | .error why => .error (.setPropertyError "MF_MT_MAJOR_TYPE" "MFMediaType_Video" why)
    | .ok _ =>
      match env.setSubtype with
      | .error why => .error (.setPropertyError "MF_MT_SUBTYPE" "fourcc" why)
      | .ok _ =>
        match env.setFrameSize with
        | .error why =>
          .error (.setPropertyError "MF_MT_FRAME_SIZE"
            (toString (builtMediaType format).frameSize) why)
        | .ok _ =>
          match env.setFrameRate with
          | .error why =>
            .error (.setPropertyError "MF_MT_FRAME_RATE"
              (toString (packFrameRate format.frame_rate)) why)
          | .ok _ =>
            match env.setFrameRateMin with
            | .error why =>
              .error (.setPropertyError "MF_MT_FRAME_RATE_RANGE_MIN"
                (toString (packFrameRate format.frame_rate)) why)
            | .ok _ =>
              match env.setFrameRateMax with
              | .error why =>
                .error (.setPropertyError "MF_MT_FRAME_RATE_RANGE_MAX"
                  (toString (packFrameRate format.frame_rate)) why)
              | .ok _ =>
                match env.setCurrent with
                | .error why =>
                  .error (.setPropertyError "MEDIA_FOUNDATION_FIRST_VIDEO_STREAM"
                    "media_type" why)
                | .ok _ => .ok (builtMediaType format)

/-- The platform calls the lifecycle manager can make (initialize_mf,
de_initialize_mf and drop, lib.rs lines 162-202 and 1203-1222):
CoInitializeEx, MFStartup, CoUninitialize, MFShutdown. -/
inductive PlatformCall
  | comInitCall
  | mfStartupCall
  | comUninitCall
  | mfShutdownCall
deriving DecidableEq, Repr

/-- The process-wide lifecycle state: the INITIALIZED flag (lib.rs line
91) and the depth of COM initialization (how many successful
CoInitializeEx calls have not been undone by CoUninitialize). -/
structure MFState where
  inited : Bool
  comCount : Nat
deriving DecidableEq, Repr

/-- The outcome of each platform call site the lifecycle functions can
reach: CoInitializeEx, MFStartup and MFShutdown. -/
structure LifeEnv where
  comInitRes : Except String Unit
  startupRes : Except String Unit
  shutdownRes : Except String Unit
deriving DecidableEq, Repr

/-- Result of a lifecycle function: its return value, the process state
it leaves behind, and the platform calls it made (attempts included). -/
structure LifeOutcome where
  res : Except NkError Unit
  state : MFState
  calls : List PlatformCall
deriving DecidableEq, Repr

/-- initialize_mf (lib.rs lines 162-186): when the INITIALIZED flag is
set it returns Ok at once with no platform call. Otherwise it calls
CoInitializeEx (failure: InitializeError, state unchanged), then
MFStartup (failure: CoUninitialize is run to undo the COM init, then
InitializeError, the flag still unset), and on success stores true into
the flag. -/
def initMF (env : LifeEnv) (s : MFState) : LifeOutcome :=
  if s.inited then ⟨.ok (), s, []⟩
  else
    match env.comInitRes with
    | .error why => ⟨.error (.initError why), s, [.comInitCall]⟩
    | .ok _ =>
      match env.startupRes with
      | .error why =>
        ⟨.error (.initError why), { s with comCount := s.comCount + 1 - 1 },
          [.comInitCall, .mfStartupCall, .comUninitCall]⟩
      | .ok _ =>
        ⟨.ok (), { inited := true, comCount := s.comCount + 1 },
          [.comInitCall, .mfStartupCall]⟩

/-- de_initialize_mf (lib.rs lines 188-202): when the INITIALIZED flag is
unset it returns Ok at once with no platform call. Otherwise it calls
MFShutdown (failure: ShutdownError returned with the flag still set and
CoUninitialize not run), then CoUninitialize and stores false into the
flag. -/
def deInitMF (env : LifeEnv) (s : MFState) : LifeOutcome :=
  if s.inited then
    match env.shutdownRes with
    | .error why => ⟨.error (.shutdownError why), s, [.mfShutdownCall]⟩
    | .ok _ =>
      ⟨.ok (), { inited := false, comCount := s.comCount - 1 },
        [.mfShutdownCall, .comUninitCall]⟩
  else ⟨.ok (), s, []⟩

/-- The process-wide state the device lifecycle touches: the
CAMERA_REFCNT counter (lib.rs line 92; a usize in the source, modelled
as Int so that being nonnegative is a statement, with the source guard
on the decrement) together with the subsystem lifecycle state. -/
structure GlobalState where
  refcnt : Int
  mf : MFState
deriving DecidableEq, Repr

/-- The refcount-relevant events of a device lifetime: a successful
MediaFoundationDevice new (lib.rs line 473 increments CAMERA_REFCNT
exactly once, on the one success path), a failed new (every failure
path returns before the increment), any other session operation
(set_format, raw_bytes, controls and the rest never touch
CAMERA_REFCNT), and Drop (lib.rs lines 1203-1222). -/
inductive DevEvent
  | openOk
  | openFail
  | sessionOp
  | dropDev
deriving DecidableEq, Repr

/-- Drop for MediaFoundationDevice (lib.rs lines 1203-1222): flush
(errors swallowed, no refcount effect), then the guarded decrement
(store load - 1 only when load > 0), then de_initialize_mf when the
count has reached 0 (its errors swallowed). -/
def applyEvent (env : LifeEnv) : DevEvent → GlobalState → GlobalState
  | .openOk, s => { s with refcnt := s.refcnt + 1 }
  | .openFail, s => s
  | .sessionOp, s => s
  | .dropDev, s =>
    let r := if 0 < s.refcnt then s.refcnt - 1 else s.refcnt
    let s1 : GlobalState := { s with refcnt := r }
    if s1.refcnt = 0 then { s1 with mf := (deInitMF env s1.mf).state } else s1

/-- A sequence of device events applied in order. -/
def applyEvents (env : LifeEnv) : List DevEvent → GlobalState → GlobalState
  | [], s => s
  | e :: es, s => applyEvents env es (applyEvent env e s)

/-- An operation that may run between an open and the matching drop:
a session operation (possibly failing) or a failed open. None of these
touch CAMERA_REFCNT in the source. -/
inductive MidOp
  | sessionMid
  | failMid
deriving DecidableEq, Repr

/-- The device event a mid-lifetime operation is. -/
def midToEvent : MidOp → DevEvent
  | .sessionMid => .sessionOp
  | .failMid => .openFail

/-- One attribute string as activate_to_descriptors obtains it (lib.rs
lines 266-337): the GetAllocatedString call may fail, may hand back a
null PWSTR, or hands back a pointer whose decoding to a String may
itself fail. -/
inductive PwStrRead
  | readError (why : String)
  | nullPtr
  | valid (decode : Except String String)
deriving DecidableEq, Repr

/-- One device activation handle, as far as enumeration reads it: its
friendly-name and symbolic-link attributes. -/
structure ActivateHandle where
  friendlyName : PwStrRead
  symbolicLink : PwStrRead
deriving DecidableEq, Repr

/-- The friendly-name attribute key (lib.rs line 277). -/
def FRIENDLY_NAME_ATTR : String := "MF_DEVSOURCE_ATTRIBUTE_FRIENDLY_NAME"

/-- The symbolic-link attribute key (lib.rs line 290). -/
def SYMLINK_ATTR : String := "MF_DEVSOURCE_ATTRIBUTE_SOURCE_TYPE_VIDCAP_SYMBOLIC_LINK"

/-- activate_to_descriptors (lib.rs lines 266-337), in source order:
failure of the friendly-name read, failure of the symbolic-link read,
then the two null-pointer checks (each a GetPropertyError naming the
attribute), then the two string decodes (each a StructureError), and
finally the CameraInfo. -/
def activate_to_descriptors (index : CameraIndex) (h : ActivateHandle) :
    Except NkError CameraInfo :=
  match h.friendlyName, h.symbolicLink with
  | .readError why, _ => .error (.getPropertyError FRIENDLY_NAME_ATTR why)
  | _, .readError why => .error (.getPropertyError SYMLINK_ATTR why)
  | .nullPtr, _ =>
    .error (.getPropertyError FRIENDLY_NAME_ATTR
      "Call to IMFActivate::GetAllocatedString failed - PWSTR is null")
  | _, .nullPtr =>
    .error (.getPropertyError SYMLINK_ATTR
      "Call to IMFActivate::GetAllocatedString failed - PWSTR is null")
  | .valid dn, .valid ds =>
    match dn with
    | .error x => .error (.structureError "PWSTR/String - Name" x)
    | .ok name =>
      match ds with
      | .error x => .error (.structureError "PWSTR/String - Symlink" x)
      | .ok symlink =>
        .ok { human_name := name, description := "MediaFoundation Camera",
              misc := symlink, index := index }

/-- query_media_foundation_descriptors (lib.rs lines 339-349) over the
activation handles the platform enumeration returned, numbering them by
ordinal position: the first conversion error aborts the whole loop
through the question-mark operator, so no partial list is returned. -/
def query_mfd (i : Nat) : List ActivateHandle → Except NkError (List CameraInfo)
  | [] => .ok []
  | h :: rest =>
    match activate_to_descriptors (CameraIndex.idx i) h with
    | .error e => .error e
    | .ok info =>
      match query_mfd (i + 1) rest with
      | .error e => .error e
      | .ok others => .ok (info :: others)

/-- The attribute of a handle whose read fails or hands back a null
pointer, first in the order the source checks them (both read failures
before both null checks); none when the reads both return a non-null
pointer. -/
def failedAttr (h : ActivateHandle) : Option String :=
  match h.friendlyName, h.symbolicLink with
  | .readError _, _ => some FRIENDLY_NAME_ATTR
  | _, .readError _ => some SYMLINK_ATTR
  | .nullPtr, _ => some FRIENDLY_NAME_ATTR
  | _, .nullPtr => some SYMLINK_ATTR
  | .valid _, .valid _ => none

/-- Whether a conversion result is a GetPropertyError naming a given
attribute. -/
def gpeNames (r : Except NkError CameraInfo) (attr : String) : Bool :=
  match r with
  | .error (.getPropertyError p _) => p == attr
  | _ => false

/-- Whether an Except is an ok value. -/
def exceptOk {α β : Type} (r : Except α β) : Bool :=
  match r with
  | .ok _ => true
  | .error _ => false

/-- Modelled from the spec: the abstract control identifiers
(nokhwa-core KnownCameraControl, not under src/), with the opaque
numeric escape value for vendor controls. -/
inductive KnownCameraControl
  | brightness
  | contrast
  | hue
  | saturation
  | sharpness
  | gamma
  | whiteBalance
  | backlightComp
  | gain
  | pan
  | tilt
  | zoom
  | exposure
  | iris
  | focus
  | other (o : Nat)
deriving DecidableEq, Repr

/-- Modelled from the spec: the manual/automatic operating-mode flag
(nokhwa-core KnownCameraControlFlag, not under src/). -/
inductive KnownCameraControlFlag
  | manual
  | automatic
deriving DecidableEq, Repr

/-- Modelled from the spec: the control value description the control
query builds (nokhwa-core ControlValueDescription, not under src/):
boolean, plain integer, or ranged integer. -/
inductive ControlValueDescription
  | boolean (value default : Bool)
  | integer (value default step : Int)
  | integerRange (min max value step default : Int)
deriving DecidableEq, Repr

/-- Modelled from the spec: the value carried by a set-control request
(nokhwa-core ControlValueSetter, not under src/): a tagged value of
which only Integer and Boolean are accepted by the hardware-control
path; the remaining constructors stand for the other tags (float,
enumerated option and the rest). -/
inductive ControlValueSetter
  | integer (i : Int)
  | boolean (b : Bool)
  | floating (f : Int)
  | enumOption (n : Nat)
deriving DecidableEq, Repr

/-- Modelled from the spec: the control descriptor returned by a control
query (nokhwa-core CameraControl, not under src/). -/
structure CameraControl where
  control : KnownCameraControl
  name : String
  description : ControlValueDescription
  flag : List KnownCameraControlFlag
  active : Bool
deriving DecidableEq, Repr

/-- The four-way platform control id of the source (lib.rs lines
351-357). -/
inductive MFControlId
  | procAmpBoolean (id : Int)
  | procAmpRange (id : Int)
  | ccValue (id : Int)
  | ccRange (id : Int)
deriving DecidableEq, Repr

/-- VideoProcAmp property ids as the windows crate defines them. -/
def VideoProcAmp_Brightness : Int := 0

def VideoProcAmp_Contrast : Int := 1

def VideoProcAmp_Hue : Int := 2

def VideoProcAmp_Saturation : Int := 3

def VideoProcAmp_Sharpness : Int := 4

def VideoProcAmp_Gamma : Int := 5

def VideoProcAmp_ColorEnable : Int := 6

def VideoProcAmp_WhiteBalance : Int := 7

def VideoProcAmp_BacklightCompensation : Int := 8

def VideoProcAmp_Gain : Int := 9

/-- CameraControl property ids as the windows crate defines them. -/
def CameraControl_Pan : Int := 0

def CameraControl_Tilt : Int := 1

def CameraControl_Zoom : Int := 3

def CameraControl_Exposure : Int := 4

def CameraControl_Iris : Int := 5

def CameraControl_Focus : Int := 6

/-- CameraControl_Flags_Auto of the windows crate. -/
def CameraControl_Flags_Auto : Int := 1

/-- CameraControl_Flags_Manual of the windows crate. -/
def CameraControl_Flags_Manual : Int := 2

/-- The wrapping cast of an unsigned value to i32 (as i32 in Rust). -/
def i32cast (n : Nat) : Int :=
  if n % 2 ^ 32 < 2 ^ 31 then (n % 2 ^ 32 : Nat) else (n % 2 ^ 32 : Nat) - 2 ^ 32

/-- The wrapping cast of an i64 to i32 (i as i32 in Rust). -/
def i64toI32 (i : Int) : Int :=
  i32cast (i % 2 ^ 32).toNat

/-- kcc_to_i32 (lib.rs lines 359-390): the static table from abstract
control to platform control id; a vendor Other control is accepted only
when its numeric value equals VideoProcAmp_ColorEnable (6), otherwise
none. -/
def kcc_to_i32 : KnownCameraControl → Option MFControlId
  | .brightness => some (.procAmpRange VideoProcAmp_Brightness)
  | .contrast => some (.procAmpRange VideoProcAmp_Contrast)
  | .hue => some (.procAmpRange VideoProcAmp_Hue)
  | .saturation => some (.procAmpRange VideoProcAmp_Saturation)
  | .sharpness => some (.procAmpRange VideoProcAmp_Sharpness)
  | .gamma => some (.procAmpRange VideoProcAmp_Gamma)
  | .whiteBalance => some (.procAmpRange VideoProcAmp_WhiteBalance)
  | .backlightComp => some (.procAmpBoolean VideoProcAmp_BacklightCompensation)
  | .gain => some (.procAmpRange VideoProcAmp_Gain)
  | .pan => some (.ccRange CameraControl_Pan)
  | .tilt => some (.ccRange CameraControl_Tilt)
  | .zoom => some (.ccRange CameraControl_Zoom)
  | .exposure => some (.ccValue CameraControl_Exposure)
  | .iris => some (.ccValue CameraControl_Iris)
  | .focus => some (.ccValue CameraControl_Focus)
  | .other o => if o = 6 then some (.procAmpRange (i32cast o)) else none

/-- Display name of an abstract control, standing for its Rust Display
implementation in the error strings below. -/
def showKcc : KnownCameraControl → String
  | .brightness => "Brightness"
  | .contrast => "Contrast"
  | .hue => "Hue"
  | .saturation => "Saturation"
  | .sharpness => "Sharpness"
  | .gamma => "Gamma"
  | .whiteBalance => "WhiteBalance"
  | .backlightComp => "BacklightComp"
  | .gain => "Gain"
  | .pan => "Pan"
  | .tilt => "Tilt"
  | .zoom => "Zoom"
  | .exposure => "Exposure"
  | .iris => "Iris"
  | .focus => "Focus"
  | .other _ => "Other"

/-- Display name of a setter tag, standing for its Rust Display
implementation in the StructureError of set_control. -/
def showSetter : ControlValueSetter → String
  | .integer _ => "Integer"
  | .boolean _ => "Boolean"
  | .floating _ => "Float"
  | .enumOption _ => "EnumValue"

/-- The outcome of each platform call site the control accessors reach
(lib.rs lines 666-840 and 842-936). The same environment serves control
and set_control: the source repeats the same GetServiceForStream and
interface casts in both, and a deterministic platform gives each call
site the same outcome. The Get entry points return the out-parameter
tuples the source reads: GetRange gives (min, max, step, default, flag)
and Get gives (value, flag). -/
structure ControlEnv where
  getService : Except String Unit
  castCameraControl : Except String Unit
  castVideoProcAmp : Except String Unit
  procAmpGetRange : Int → Except String (Int × Int × Int × Int × Int)
  procAmpGet : Int → Except String (Int × Int)
  ccGetRange : Int → Except String (Int × Int × Int × Int × Int)
  ccGet : Int → Except String (Int × Int)
  procAmpSet : Int → Int → Int → Except String Unit
  ccSet : Int → Int → Int → Except String Unit

/-- The CameraControl value the control query assembles (lib.rs lines
827-839): the operating-mode flag is Manual exactly when the flag read
back equals CameraControl_Flags_Manual, and the flag vector holds that
one entry. -/
def mkCamCtrl (kcc : KnownCameraControl) (desc : ControlValueDescription)
    (fl : Int) : CameraControl :=
  { control := kcc
    name := showKcc kcc
    description := desc
    flag := [if fl = CameraControl_Flags_Manual then .manual else .automatic]
    active := true }

/-- control of MediaFoundationDevice (lib.rs lines 666-840):
GetServiceForStream, the two interface casts, kcc_to_i32, then per
category a GetRange and a Get on the matching interface, building the
value description; the flag reported is the one the Get wrote last. -/
def control (env : ControlEnv) (kcc : KnownCameraControl) :
    Except NkError CameraControl :=
  match env.getService with
  | .error why =>
    .error (.setPropertyError "MEDIA_FOUNDATION_FIRST_VIDEO_STREAM"
      "MF_MEDIASOURCE_SERVICE" why)
  | .ok _ =>
    match env.castCameraControl with
    | .error why => .error (.structureError "IAMCameraControl" why)
    | .ok _ =>
      match env.castVideoProcAmp with
      | .error why => .error (.structureError "IAMVideoProcAmp" why)
      | .ok _ =>
        match kcc_to_i32 kcc with
        | none => .error (.setPropertyError "CameraControl" (showKcc kcc) "Does not exist")
        | some control_id =>
          match control_id with
          | .procAmpBoolean id =>
            match env.procAmpGetRange id with
            | .error why => .error (.getPropertyError (showKcc kcc ++ " - Range") why)
            | .ok (_, _, _, default, _) =>
              match env.procAmpGet id with
              | .error why => .error (.getPropertyError (showKcc kcc ++ " - Value") why)
              | .ok (value, fl) =>
                .ok (mkCamCtrl kcc (.boolean (value != 0) (default != 0)) fl)
          | .procAmpRange id =>
            match env.procAmpGetRange id with
            | .error why => .error (.getPropertyError (showKcc kcc ++ " - Range") why)
            | .ok (min, max, step, default, _) =>
              match env.procAmpGet id with
              | .error why => .error (.getPropertyError (showKcc kcc ++ " - Value") why)
              | .ok (value, fl) =>
                .ok (mkCamCtrl kcc (.integerRange min max value step default) fl)
          | .ccValue id =>
            match env.ccGetRange id with
            | .error why => .error (.getPropertyError (showKcc kcc ++ " - Range") why)
            | .ok (_, _, step, default, _) =>
              match env.ccGet id with
              | .error why => .error (.getPropertyError (showKcc kcc ++ " - Value") why)
              | .ok (value, fl) =>
                .ok (mkCamCtrl kcc (.integer value default step) fl)
          | .ccRange id =>
            match env.ccGetRange id with
            | .error why => .error (.getPropertyError (showKcc kcc ++ " - Range") why)
            | .ok (min, max, step, default, _) =>
              match env.ccGet id with
              | .error why => .error (.getPropertyError (showKcc kcc ++ " - Value") why)
              | .ok (value, fl) =>
                .ok (mkCamCtrl kcc (.integerRange min max value step default) fl)

/-- The value match of set_control (lib.rs lines 888-897): Integer is
cast to i32, Boolean to 0 or 1, and every other tag falls to the
catch-all arm (none here; the source returns a StructureError there). -/
def ctrlValueOf : ControlValueSetter → Option Int
  | .integer i => some (i64toI32 i)
  | .boolean b => some (if b then 1 else 0)
  | _ => none

/-- The flag set_control computes from the previously read control
(lib.rs lines 899-912): the first entry of the flag vector, Automatic
mapping to CameraControl_Flags_Auto and anything else to
CameraControl_Flags_Manual; an empty vector is a StructureError. -/
def flagFrom (cv : CameraControl) : Option Int :=
  match cv.flag with
  | [] => none
  | x :: _ => some (if x = KnownCameraControlFlag.automatic then
      CameraControl_Flags_Auto else CameraControl_Flags_Manual)

/-- set_control (lib.rs lines 842-936): the current value is read first
through control; then GetServiceForStream and the two casts are
repeated, kcc_to_i32 resolves the id, the incoming value is matched
(any tag other than Integer and Boolean returns a StructureError
before the flag computation and before any Set), and finally the
proc-amp or camera-control Set runs. The Bool of the result records
whether a native Set call was invoked. -/
def set_control (env : ControlEnv) (kcc : KnownCameraControl)
    (value : ControlValueSetter) : Except NkError Unit × Bool :=
  match control env kcc with
  | .error e => (.error e, false)
  | .ok current_value =>
    match env.getService with
    | .error why =>
      (.error (.setPropertyError "MEDIA_FOUNDATION_FIRST_VIDEO_STREAM"
        "MF_MEDIASOURCE_SERVICE" why), false)
    | .ok _ =>
      match env.castCameraControl with
      | .error why => (.error (.structureError "IAMCameraControl" why), false)
      | .ok _ =>
        match env.castVideoProcAmp with
        | .error why => (.error (.structureError "IAMVideoProcAmp" why), false)
        | .ok _ =>
          match kcc_to_i32 kcc with
          | none =>
            (.error (.setPropertyError "CameraControl" (showKcc kcc) "Does not exist"),
              false)
          | some control_id =>
            match ctrlValueOf value with
            | none =>
              (.error (.structureError ("ControlValueSetter " ++ showSetter value)
                "invalid value type"), false)
            | some ctrl_value =>
              match flagFrom current_value with
              | none =>
                (.error (.structureError "KnownCameraControlFlag" "could not cast to i32"),
                  false)
              | some fl =>
                match control_id with
                | .procAmpBoolean id | .procAmpRange id =>
                  match env.procAmpSet id ctrl_value fl with
                  | .error why =>
                    (.error (.setPropertyError (showKcc kcc) (toString ctrl_value) why), true)
                  | .ok _ => (.ok (), true)
                | .ccValue id | .ccRange id =>
                  match env.ccSet id ctrl_value fl with
                  | .error why =>
                    (.error (.setPropertyError (showKcc kcc) (toString ctrl_value) why), true)
                  | .ok _ => (.ok (), true)

/-- The events on the sample buffer raw_bytes can produce: a successful
Lock acquisition, a failed Lock attempt, and an Unlock (which the
source never performs). -/
inductive BufOp
  | lockAcquired
  | lockFailed
  | unlockCalled
deriving DecidableEq, Repr

/-- The outcome of each platform call site of raw_bytes (lib.rs lines
1115-1196): the sample-read loop (which exits only with an error or a
sample), ConvertToContiguousBuffer, the first Lock (on success handing
back whether the pointer is null and the valid byte length), the second
Lock call made on the success path where a release belongs, and the
bytes copied when the copy happens. -/
structure FrameEnv where
  sampleRead : Except String Unit
  convertRes : Except String Unit
  lockRes : Except String (Bool × Nat)
  relockRes : Except String Unit
  frameData : List Nat
deriving DecidableEq, Repr

/-- raw_bytes (lib.rs lines 1115-1196), returning its result together
with the trace of buffer-lock events. After a successful Lock: a null
buffer pointer and a zero valid length each return a ReadFrameError at
once (with no release of the lock), and the success path copies the
bytes and then calls Lock a second time (errors swallowed) instead of
an unlock. No path of the source contains an Unlock call. -/
def raw_bytes (env : FrameEnv) : Except NkError (List Nat) × List BufOp :=
  match env.sampleRead with
  | .error why => (.error (.readFrameError why), [])
  | .ok _ =>
    match env.convertRes with
    | .error why => (.error (.readFrameError why), [])
    | .ok _ =>
      match env.lockRes with
      | .error why => (.error (.readFrameError why), [.lockFailed])
      | .ok (isNull, len) =>
        if isNull then
          (.error (.readFrameError "Buffer Pointer Null"), [.lockAcquired])
        else if len = 0 then
          (.error (.readFrameError "Buffer Size is 0"), [.lockAcquired])
        else
          match env.relockRes with
          | .ok _ => (.ok env.frameData, [.lockAcquired, .lockAcquired])
          | .error _ => (.ok env.frameData, [.lockAcquired])

/-- How many lock acquisitions a buffer trace holds. -/
def acquiredCount (tr : List BufOp) : Nat :=
  tr.count .lockAcquired

/-- How many lock releases a buffer trace holds. -/
def releasedCount (tr : List BufOp) : Nat :=
  tr.count .unlockCalled

/-- A current media type whose packed frame rate has numerator 30 and
denominator 1, as format_refreshed reads it. -/
def envC1 : CurrentTypeEnv :=
  { getCurrent := .ok ()
    getFrameSize := .ok (1280 * 2 ^ 32 + 720)
    getFrameRate := .ok (30 * 2 ^ 32 + 1)
    getSubtype := .ok .videoFormatYUY2 }

/-- C1: the packed fraction 30 * 2 pow 32 + 1 (numerator 30, denominator
1) decodes to 30 under the rule compatible_format_list applies to all
three rate fields, but format_refreshed stores 1 - the value truncated
to its low 32 bits, which is the denominator - so the claimed decode
rule does not hold in format_refreshed. -/
theorem c1_format_refreshed_divergence :
    format_refreshed envC1 = .ok ⟨⟨1280, 720⟩, .YUYV, 1⟩ ∧
    decodeFrameRate (30 * 2 ^ 32 + 1) = 30 ∧ (1 : Nat) ≠ 30 := by
  exact ⟨rfl, rfl, by decide⟩

/-- A concrete requested format with frame rate 30. -/
def fmt30 : CameraFormat := ⟨⟨1280, 720⟩, .MJPEG, 30⟩

/-- A set_format environment in which every platform call succeeds. -/
def envAllOkSF : SetFormatEnv :=
  ⟨.ok (), .ok (), .ok (), .ok (), .ok (), .ok (), .ok (), .ok ()⟩

/-- C2 counterexample: for the request with frame rate 30, set_format
succeeds and hands the platform the built media type, but the packed
frame-rate value it carries does not have 30 in its high 32 bits and 1
in its low 32 bits. -/
theorem c2_counterexample :
    set_format envAllOkSF fmt30 = .ok (builtMediaType fmt30) ∧
    ¬ ((builtMediaType fmt30).frameRate / 2 ^ 32 = 30 ∧
      (builtMediaType fmt30).frameRate % 2 ^ 32 = 1) := by
  constructor
  · rfl
  · decide

/-- The packed rate divided by 2 pow 32: its high 32 bits. -/
theorem packFrameRate_div (r : Nat) :
    packFrameRate r / 2 ^ 32 = r % 2 ^ 8 * 2 ^ 24 := by
  unfold packFrameRate
  omega

/-- The packed rate modulo 2 pow 32: its low 32 bits. -/
theorem packFrameRate_mod (r : Nat) :
    packFrameRate r % 2 ^ 32 = 2 ^ 24 := by
  unfold packFrameRate
  omega

/-- C2 (amended): whenever set_format succeeds, the media type it set
carries the same packed frame-rate value in the current, minimum and
maximum rate fields, and that value holds (frame_rate mod 256) * 2 pow
24 in its high 32 bits and 2 pow 24 in its low 32 bits - not the
requested rate over a denominator of 1. -/
theorem c2_set_format_rate_fields (env : SetFormatEnv) (format : CameraFormat)
    (mt : MFMediaType) (h : set_format env format = .ok mt) :
    mt.frameRate = packFrameRate format.frame_rate ∧
    mt.frameRateRangeMin = mt.frameRate ∧
    mt.frameRateRangeMax = mt.frameRate ∧
    mt.frameRate / 2 ^ 32 = format.frame_rate % 2 ^ 8 * 2 ^ 24 ∧
    mt.frameRate % 2 ^ 32 = 2 ^ 24 := by
  have hmt : mt = builtMediaType format := by
    unfold set_format at h
    repeat' split at h
    all_goals (cases h <;> rfl)
  subst hmt
  refine ⟨rfl, rfl, rfl, ?_, ?_⟩
  · exact packFrameRate_div format.frame_rate
  · exact packFrameRate_mod format.frame_rate

/-- C2 witness: the amended statement evaluated at the concrete request
with frame rate 30 in the all-success environment. -/
theorem c2_set_format_rate_fields_witness :
    (builtMediaType fmt30).frameRate = packFrameRate fmt30.frame_rate ∧
    (builtMediaType fmt30).frameRateRangeMin = (builtMediaType fmt30).frameRate ∧
    (builtMediaType fmt30).frameRateRangeMax = (builtMediaType fmt30).frameRate ∧
    (builtMediaType fmt30).frameRate / 2 ^ 32 = fmt30.frame_rate % 2 ^ 8 * 2 ^ 24 ∧
    (builtMediaType fmt30).frameRate % 2 ^ 32 = 2 ^ 24 :=
  c2_set_format_rate_fields envAllOkSF fmt30 (builtMediaType fmt30) rfl

/-- A native media type whose subtype GUID is outside the recognized
set, all its attribute reads succeeding. -/
def unknownNative : MFNativeType :=
  { getSubtype := .ok (.other 0)
    getFrameSize := .ok (1280 * 2 ^ 32 + 720)
    getFrameRate := .ok (30 * 2 ^ 32 + 1)
    getFrameRateMin := .ok (30 * 2 ^ 32 + 1)
    getFrameRateMax := .ok (30 * 2 ^ 32 + 1) }

/-- C3: on a device whose native type at index 0 has an unrecognized
subtype GUID, the loop of compatible_format_list never finishes, for
any amount of fuel: the continue in the unrecognized-subtype branch
skips the index increment at the end of the body, so every iteration
re-reads the same index with the same accumulator. -/
theorem c3_unknown_subtype_never_terminates (fuel : Nat) (acc : List CameraFormat) :
    compatLoop [unknownNative] fuel 0 acc = none := by
  induction fuel generalizing acc with
  | zero => rfl
  | succ n ih => exact ih acc

/-- Whether no two adjacent entries of an emitted list share resolution,
pixel encoding and frame rate. -/
def noAdjacentDup : List CameraFormat → Bool
  | [] => true
  | [_] => true
  | a :: b :: t =>
    !(a.resolution == b.resolution && a.format == b.format &&
        a.frame_rate == b.frame_rate) && noAdjacentDup (b :: t)

/-- Whether no entry of an emitted list carries a zero frame rate. -/
def noZeroRate (l : List CameraFormat) : Bool :=
  l.all (fun c => c.frame_rate != 0)

/-- C5 counterexample: for a native type whose min and max packed
fractions both decode to 5 while the nominal fraction has denominator 2
and so decodes to 0, the per-type emission holds two adjacent entries
with the same resolution, encoding and rate, refuting the claim as
stated (its no-zero-rate half notwithstanding). -/
theorem c5_counterexample :
    ¬ (noAdjacentDup
        (emitForType ⟨1280, 720⟩ .MJPEG (decodeFrameRate (5 * 2 ^ 32 + 1))
          (decodeFrameRate (30 * 2 ^ 32 + 2)) (decodeFrameRate (5 * 2 ^ 32 + 1))) = true ∧
      noZeroRate
        (emitForType ⟨1280, 720⟩ .MJPEG (decodeFrameRate (5 * 2 ^ 32 + 1))
          (decodeFrameRate (30 * 2 ^ 32 + 2)) (decodeFrameRate (5 * 2 ^ 32 + 1))) = true) := by
  decide

/-- C5 (amended): the per-type emission never holds a zero rate, and it
never holds two adjacent entries with equal resolution, encoding and
rate - except in the one case the guards of the source do not compare,
a nominal rate of 0 with min and max equal and nonzero, where the min
and max entries repeat the same rate. -/
theorem c5_no_adjacent_duplicates (res : Resolution) (fmt : FrameFormat)
    (rmin r rmax : Nat) :
    noZeroRate (emitForType res fmt rmin r rmax) = true ∧
    (noAdjacentDup (emitForType res fmt rmin r rmax) = true ∨
      (r = 0 ∧ rmin = rmax ∧ rmin ≠ 0)) := by
  unfold emitForType
  split_ifs <;> simp_all [noAdjacentDup, noZeroRate]
  all_goals omega

/-- A single lifecycle step keeps the reference count nonnegative:
openOk adds one, dropDev subtracts one only behind the source guard
that the count is positive, and nothing else touches it. -/
theorem applyEvent_refcnt_nonneg (env : LifeEnv) (e : DevEvent) (s : GlobalState)
    (h : 0 ≤ s.refcnt) : 0 ≤ (applyEvent env e s).refcnt := by
  cases e <;> simp only [applyEvent] <;> try omega
  split_ifs <;> simp <;> omega

/-- The reference count of a dropDev step, read off the source guard. -/
theorem dropDev_refcnt (env : LifeEnv) (s : GlobalState) :
    (applyEvent env .dropDev s).refcnt =
      if 0 < s.refcnt then s.refcnt - 1 else s.refcnt := by
  simp only [applyEvent]
  split_ifs <;> simp_all

/-- Any event sequence keeps the reference count nonnegative. -/
theorem applyEvents_refcnt_nonneg (env : LifeEnv) (evs : List DevEvent) :
    ∀ s : GlobalState, 0 ≤ s.refcnt → 0 ≤ (applyEvents env evs s).refcnt := by
  induction evs with
  | nil => intro s h; exact h
  | cons e es ih =>
    intro s h
    exact ih (applyEvent env e s) (applyEvent_refcnt_nonneg env e s h)

/-- Mid-lifetime operations leave the global state untouched: no session
operation and no failed open reaches CAMERA_REFCNT in the source. -/
theorem applyEvent_mid (env : LifeEnv) (m : MidOp) (s : GlobalState) :
    applyEvent env (midToEvent m) s = s := by
  cases m <;> rfl

/-- A whole sequence of mid-lifetime operations leaves the global state
untouched. -/
theorem applyEvents_mids (env : LifeEnv) (mids : List MidOp) :
    ∀ s : GlobalState, applyEvents env (mids.map midToEvent) s = s := by
  induction mids with
  | nil => intro s; rfl
  | cons m t ih =>
    intro s
    calc applyEvents env ((m :: t).map midToEvent) s
        = applyEvents env (t.map midToEvent) (applyEvent env (midToEvent m) s) := rfl
      _ = applyEvents env (t.map midToEvent) s := by rw [applyEvent_mid]
      _ = s := ih s

/-- C4: from any state with a nonnegative count, every event sequence
keeps the count nonnegative; a successful open adds exactly one; a drop
with a positive count subtracts exactly one; and an open followed by any
mid-lifetime operations (failing ones included) and the matching drop
returns the count to its value before the open. -/
theorem c4_refcnt_invariant (env : LifeEnv) (s : GlobalState) (evs : List DevEvent)
    (mids : List MidOp) (h : 0 ≤ s.refcnt) :
    0 ≤ (applyEvents env evs s).refcnt ∧
    (applyEvent env .openOk s).refcnt = s.refcnt + 1 ∧
    (0 < s.refcnt → (applyEvent env .dropDev s).refcnt = s.refcnt - 1) ∧
    (applyEvent env .dropDev
      (applyEvents env (mids.map midToEvent) (applyEvent env .openOk s))).refcnt
      = s.refcnt := by
  refine ⟨applyEvents_refcnt_nonneg env evs s h, rfl, ?_, ?_⟩
  · intro hpos
    rw [dropDev_refcnt]
    simp [hpos]
  · rw [applyEvents_mids, dropDev_refcnt]
    have hopen : (applyEvent env .openOk s).refcnt = s.refcnt + 1 := rfl
    rw [hopen]
    have : 0 < s.refcnt + 1 := by omega
    simp [this]

/-- A lifecycle environment in which every platform call succeeds. -/
def envLifeOk : LifeEnv := ⟨.ok (), .ok (), .ok ()⟩

/-- The idle global state: no open session, subsystem down. -/
def s0C4 : GlobalState := ⟨0, ⟨false, 0⟩⟩

/-- C4 witness: the invariant evaluated from the idle state, with one
failing and one ordinary operation between the open and the drop. -/
theorem c4_refcnt_invariant_witness :
    0 ≤ (applyEvents envLifeOk [DevEvent.openOk, DevEvent.dropDev] s0C4).refcnt ∧
    (applyEvent envLifeOk .openOk s0C4).refcnt = s0C4.refcnt + 1 ∧
    (0 < s0C4.refcnt → (applyEvent envLifeOk .dropDev s0C4).refcnt = s0C4.refcnt - 1) ∧
    (applyEvent envLifeOk .dropDev
      (applyEvents envLifeOk ([MidOp.sessionMid, MidOp.failMid].map midToEvent)
        (applyEvent envLifeOk .openOk s0C4))).refcnt = s0C4.refcnt :=
  c4_refcnt_invariant envLifeOk s0C4 [DevEvent.openOk, DevEvent.dropDev]
    [MidOp.sessionMid, MidOp.failMid] (by decide)

/-- C7: with the flag already set, initMF returns success, changes
nothing and makes no platform call; with the flag unset, deInitMF does
the same; and running either function twice in a row from any state
leaves the same state and the same result as running it once. -/
theorem c7_lifecycle_idempotent (env : LifeEnv) (s : MFState) (n : Nat) :
    initMF env { inited := true, comCount := n } =
      ⟨.ok (), { inited := true, comCount := n }, []⟩ ∧
    deInitMF env { inited := false, comCount := n } =
      ⟨.ok (), { inited := false, comCount := n }, []⟩ ∧
    (initMF env (initMF env s).state).state = (initMF env s).state ∧
    (initMF env (initMF env s).state).res = (initMF env s).res ∧
    (deInitMF env (deInitMF env s).state).state = (deInitMF env s).state ∧
    (deInitMF env (deInitMF env s).state).res = (deInitMF env s).res := by
  refine ⟨rfl, rfl, ?_, ?_, ?_, ?_⟩
  all_goals
    rcases s with ⟨i, c⟩
    cases i <;> cases hci : env.comInitRes <;> cases hsu : env.startupRes <;>
      cases hsh : env.shutdownRes <;>
      simp [initMF, deInitMF, hci, hsu, hsh]

/-- C10: with the subsystem not yet up, a successful CoInitializeEx
followed by a failing MFStartup leaves the state exactly as it was (the
COM init undone by the CoUninitialize the source runs, the flag still
unset) and returns the InitializeError; with the subsystem up, a failing
MFShutdown returns the ShutdownError with the flag still set and no
CoUninitialize call made. -/
theorem c10_failure_leaves_state (env : LifeEnv) (s t : MFState) (m : String)
    (hs : s.inited = false) (ht : t.inited = true)
    (hok : env.comInitRes = .ok ()) (hfail : env.startupRes = .error m)
    (hshut : env.shutdownRes = .error m) :
    initMF env s = ⟨.error (.initError m), s,
      [.comInitCall, .mfStartupCall, .comUninitCall]⟩ ∧
    deInitMF env t = ⟨.error (.shutdownError m), t, [.mfShutdownCall]⟩ := by
  constructor
  · rcases s with ⟨i, c⟩
    simp_all [initMF]
  · rcases t with ⟨i, c⟩
    simp_all [deInitMF]

/-- A lifecycle environment whose COM init succeeds but whose MFStartup
and MFShutdown both fail. -/
def envC10 : LifeEnv := ⟨.ok (), .error "platform failure", .error "platform failure"⟩

/-- C10 witness: the two failure scenarios evaluated at concrete
states. -/
theorem c10_failure_leaves_state_witness :
    initMF envC10 ⟨false, 0⟩ = ⟨.error (.initError "platform failure"), ⟨false, 0⟩,
      [.comInitCall, .mfStartupCall, .comUninitCall]⟩ ∧
    deInitMF envC10 ⟨true, 1⟩ = ⟨.error (.shutdownError "platform failure"), ⟨true, 1⟩,
      [.mfShutdownCall]⟩ :=
  c10_failure_leaves_state envC10 ⟨false, 0⟩ ⟨true, 1⟩ "platform failure"
    rfl rfl rfl rfl rfl

/-- Whether a setter value carries the Integer or the Boolean tag. -/
def isIntOrBool : ControlValueSetter → Bool
  | .integer _ => true
  | .boolean _ => true
  | _ => false

/-- C6: whenever the preceding read of the current control value
succeeds, set_control on a value whose tag is neither Integer nor
Boolean returns the StructureError of the catch-all value arm, and no
native proc-amp or camera-control Set call is invoked (the Bool of the
result is false). -/
theorem c6_set_control_rejects (env : ControlEnv) (kcc : KnownCameraControl)
    (value : ControlValueSetter) (cv : CameraControl)
    (hread : control env kcc = .ok cv) (hv : isIntOrBool value = false) :
    set_control env kcc value =
      (.error (.structureError ("ControlValueSetter " ++ showSetter value)
        "invalid value type"), false) := by
  have hgs : env.getService = .ok () := by
    cases hx : env.getService with
    | error w => simp [control, hx] at hread
    | ok u => cases u; rfl
  have hcc : env.castCameraControl = .ok () := by
    cases hx : env.castCameraControl with
    | error w => simp [control, hgs, hx] at hread
    | ok u => cases u; rfl
  have hvp : env.castVideoProcAmp = .ok () := by
    cases hx : env.castVideoProcAmp with
    | error w => simp [control, hgs, hcc, hx] at hread
    | ok u => cases u; rfl
  obtain ⟨cid, hid⟩ : ∃ cid, kcc_to_i32 kcc = some cid := by
    cases hx : kcc_to_i32 kcc with
    | none => simp [control, hgs, hcc, hvp, hx] at hread
    | some c => exact ⟨c, rfl⟩
  have hval : ctrlValueOf value = none := by
    cases value <;> simp_all [isIntOrBool, ctrlValueOf]
  simp [set_control, hread, hgs, hcc, hvp, hid, hval]

/-- A control environment in which every platform call succeeds, every
range and value reading zero. -/
def envOkCtl : ControlEnv :=
  { getService := .ok ()
    castCameraControl := .ok ()
    castVideoProcAmp := .ok ()
    procAmpGetRange := fun _ => .ok (0, 0, 0, 0, 0)
    procAmpGet := fun _ => .ok (0, 0)
    ccGetRange := fun _ => .ok (0, 0, 0, 0, 0)
    ccGet := fun _ => .ok (0, 0)
    procAmpSet := fun _ _ _ => .ok ()
    ccSet := fun _ _ _ => .ok () }

/-- C6 witness: a float-tagged request for Brightness, the read
succeeding, is rejected with the StructureError and no Set call. -/
theorem c6_set_control_rejects_witness :
    set_control envOkCtl .brightness (.floating 3) =
      (.error (.structureError ("ControlValueSetter " ++ showSetter (.floating 3))
        "invalid value type"), false) :=
  c6_set_control_rejects envOkCtl .brightness (.floating 3)
    (mkCamCtrl .brightness (.integerRange 0 0 0 0 0) 0) rfl rfl

/-- A handle with a failing or null attribute read converts to the
GetPropertyError naming the first failing attribute in source order. -/
theorem failedAttr_gpe (i : CameraIndex) (h : ActivateHandle) (a : String)
    (hf : failedAttr h = some a) :
    gpeNames (activate_to_descriptors i h) a = true := by
  rcases h with ⟨fn, sl⟩
  cases fn <;> cases sl <;> simp_all [failedAttr, activate_to_descriptors, gpeNames]

/-- A handle with a failing or null attribute read never converts to a
CameraInfo. -/
theorem failedAttr_not_ok (i : CameraIndex) (h : ActivateHandle)
    (hf : (failedAttr h).isSome = true) :
    exceptOk (activate_to_descriptors i h) = false := by
  rcases h with ⟨fn, sl⟩
  cases fn <;> cases sl <;> simp_all [failedAttr, activate_to_descriptors, exceptOk]

/-- Enumeration over a handle list holding any handle with a failing or
null attribute read never returns an ok list, from any starting
ordinal. -/
theorem query_mfd_any_failure (handles : List ActivateHandle)
    (hany : handles.any (fun hh => (failedAttr hh).isSome) = true) :
    ∀ i : Nat, exceptOk (query_mfd i handles) = false := by
  induction handles with
  | nil => simp at hany
  | cons h t ih =>
    intro i
    simp only [List.any_cons, Bool.or_eq_true] at hany
    by_cases hh : (failedAttr h).isSome = true
    · have hnok := failedAttr_not_ok (CameraIndex.idx i) h hh
      cases hx : activate_to_descriptors (CameraIndex.idx i) h with
      | error e => simp [query_mfd, hx, exceptOk]
      | ok info => rw [hx] at hnok; simp [exceptOk] at hnok
    · have ht : t.any (fun hh => (failedAttr hh).isSome) = true := by
        rcases hany with h1 | h2
        · exact absurd h1 hh
        · exact h2
      cases hx : activate_to_descriptors (CameraIndex.idx i) h with
      | error e => simp [query_mfd, hx, exceptOk]
      | ok info =>
        have hq := ih ht (i + 1)
        cases hy : query_mfd (i + 1) t with
        | error e => simp [query_mfd, hx, hy, exceptOk]
        | ok l => rw [hy] at hq; simp [exceptOk] at hq

/-- C8: a handle whose friendly-name or symbolic-link read fails or
hands back a null pointer converts to a GetPropertyError naming that
attribute, and an enumeration whose handle list holds any such handle
returns an error - never a partial device list. -/
theorem c8_enumeration_all_or_nothing (i : Nat) (h : ActivateHandle) (a : String)
    (handles : List ActivateHandle)
    (hf : failedAttr h = some a)
    (hany : handles.any (fun hh => (failedAttr hh).isSome) = true) :
    gpeNames (activate_to_descriptors (CameraIndex.idx i) h) a = true ∧
    exceptOk (query_mfd 0 handles) = false :=
  ⟨failedAttr_gpe (CameraIndex.idx i) h a hf, query_mfd_any_failure handles hany 0⟩

/-- A handle whose friendly-name read fails outright. -/
def badHandle : ActivateHandle := ⟨.readError "access denied", .valid (.ok "link")⟩

/-- C8 witness: the all-or-nothing statement evaluated on a one-device
list whose friendly-name read fails. -/
theorem c8_enumeration_all_or_nothing_witness :
    gpeNames (activate_to_descriptors (CameraIndex.idx 0) badHandle)
      FRIENDLY_NAME_ATTR = true ∧
    exceptOk (query_mfd 0 [badHandle]) = false :=
  c8_enumeration_all_or_nothing 0 badHandle FRIENDLY_NAME_ATTR [badHandle] rfl rfl

/-- A frame read whose Lock succeeds but hands back a null pointer. -/
def envNullC9 : FrameEnv := ⟨.ok (), .ok (), .ok (true, 0), .ok (), []⟩

/-- A frame read whose Lock succeeds with a zero valid length. -/
def envZeroC9 : FrameEnv := ⟨.ok (), .ok (), .ok (false, 0), .ok (), []⟩

/-- A frame read on which every platform call succeeds. -/
def envGoodC9 : FrameEnv := ⟨.ok (), .ok (), .ok (false, 4), .ok (), [1, 2, 3, 4]⟩

/-- C9: the lock is never released on any path of raw_bytes. On the
null-pointer and zero-length error paths the function returns an error
with the lock still held (one acquisition, no release), and on the
success path it acquires the lock a second time - where a release
belongs - ending with two acquisitions and no release. -/
theorem c9_lock_never_released :
    exceptOk (raw_bytes envNullC9).1 = false ∧
    (raw_bytes envNullC9).2 = [.lockAcquired] ∧
    releasedCount (raw_bytes envNullC9).2 = 0 ∧
    exceptOk (raw_bytes envZeroC9).1 = false ∧
    (raw_bytes envZeroC9).2 = [.lockAcquired] ∧
    releasedCount (raw_bytes envZeroC9).2 = 0 ∧
    (raw_bytes envGoodC9).2 = [.lockAcquired, .lockAcquired] ∧
    releasedCount (raw_bytes envGoodC9).2 = 0 := by
  decide

end NokhwaWmf
